import Mathlib

/-!
Shallow embedding of the beeDaily daily-routine tracker (src/scripts/main.js)
and proofs checking its natural-language specification against the code.

Modelling conventions:
* `localStorage` is an association list of string keys to string values.
* JavaScript `Set` objects are insertion-ordered duplicate-free lists
  (`delete` removes the element, a later `add` appends at the end, exactly
  as JS `Set` iteration order is observed by the spread operator).
* JavaScript numbers are modelled by `ℚ` (all quantities the claims talk
  about are small integers or exact halves, where IEEE doubles agree with
  exact rational arithmetic) and machine integers by `Int` with explicit
  reductions mod 2^32.
* `JSON.parse` is modelled by recognizers restricted to the shapes this
  program itself writes (an array of strings for the completion set, a
  two-field coordinate object); inputs outside that shape are treated as
  parse failures, and a thrown exception is an `Except.error`.
* DOM access and animations are elided; the decisions they are driven by
  (celebration tier, milestone message) are kept as data.
-/

namespace BeeDaily

/-- A browser `localStorage` snapshot: ordered key/value pairs. -/
abbrev Storage := List (String × String)

/-- `localStorage.getItem`. -/
def getItem (st : Storage) (k : String) : Option String :=
  (st.find? (fun p => p.1 == k)).map (fun p => p.2)

/-- `localStorage.setItem`: overwrite in place if the key exists, else append. -/
def setItem (st : Storage) (k v : String) : Storage :=
  if st.any (fun p => p.1 == k) then
    st.map (fun p => if p.1 == k then (k, v) else p)
  else
    st ++ [(k, v)]

/-- `localStorage.removeItem`. -/
def removeItem (st : Storage) (k : String) : Storage :=
  st.filter (fun p => p.1 != k)

/-- A geographic coordinate, as stored by the tracker. -/
structure Coordinates where
  latitude : ℚ
  longitude : ℚ
deriving DecidableEq, Repr

/-- The hard-coded default location (39.697722, -104.895528) from the
constructor of `DailyTracker`. -/
def defaultCoordinates : Coordinates :=
  { latitude := (39697722 : ℚ) / 1000000, longitude := -((104895528 : ℚ) / 1000000) }

/-- One task of the schedule catalog. -/
structure SchedTask where
  id : String
  icon : String
  text : String
deriving DecidableEq, Repr

/-- One time-of-day section of the schedule. -/
structure ScheduleSection where
  icon : String
  title : String
  tasks : List SchedTask
deriving DecidableEq, Repr

/-- The loaded schedule: ordered object entries, keyed by time-of-day label. -/
abbrev Schedule := List (String × ScheduleSection)

/-- A quote of the fixed catalog. -/
structure Quote where
  text : String
  author : String
deriving DecidableEq, Repr

/-- A moment in time as the browser sees it: milliseconds since the Unix
epoch plus the value `Date.prototype.getTimezoneOffset` would return
(minutes, positive west of UTC). -/
structure Instant where
  ms : Int
  tzOffsetMin : Int
deriving DecidableEq, Repr

/-! ### Civil-date arithmetic for `toISOString`

`new Date().toISOString().split('T')[0]` prints the UTC calendar date of
`floor(ms / 86400000)` days since 1970-01-01.  The day-number-to-date
conversion below is the standard civil-from-days algorithm, which agrees
with ECMAScript's `YearFromTime`/`MonthFromTime`/`DateFromTime`. -/

/-- 400-year era of a day number (day 0 = 1970-01-01). -/
def civilEra (z : Int) : Int := Int.ediv (z + 719468) 146097

/-- Day-of-era in `[0, 146096]`. -/
def civilDoe (z : Int) : Nat := ((z + 719468).emod 146097).toNat

/-- Year-of-era in `[0, 399]`. -/
def civilYoe (doe : Nat) : Nat :=
  (doe - doe / 1460 + doe / 36524 - doe / 146096) / 365

/-- Day-of-year (March-based) in `[0, 365]`. -/
def civilDoy (doe : Nat) : Nat :=
  doe - (365 * civilYoe doe + civilYoe doe / 4 - civilYoe doe / 100)

/-- March-based month index in `[0, 11]`. -/
def civilMp (doe : Nat) : Nat := (5 * civilDoy doe + 2) / 153

/-- Day of month in `[1, 31]`. -/
def civilDayOfMonth (doe : Nat) : Nat :=
  civilDoy doe - (153 * civilMp doe + 2) / 5 + 1

/-- Calendar month in `[1, 12]`. -/
def civilMonth (doe : Nat) : Nat :=
  if civilMp doe < 10 then civilMp doe + 3 else civilMp doe - 9

/-- Calendar year (can be any integer). -/
def civilYear (z : Int) : Int :=
  (civilYoe (civilDoe z) : Int) + civilEra z * 400 +
    (if civilMonth (civilDoe z) ≤ 2 then 1 else 0)

/-- The decimal digit character for `n % 10`. -/
def digitChar (n : Nat) : Char := Char.ofNat (48 + n % 10)

/-- Two-digit zero-padded rendering, for values `< 100` (months and days). -/
def pad2c (n : Nat) : List Char := [digitChar (n / 10), digitChar n]

/-- Four-digit zero-padded rendering, for years `0..9999`. -/
def pad4c (n : Nat) : List Char :=
  [digitChar (n / 1000), digitChar (n / 100), digitChar (n / 10), digitChar n]

/-- Six-digit zero-padded rendering, for the extended-year format (JS dates
reach at most year 275760, below 10^6). -/
def pad6c (n : Nat) : List Char :=
  [digitChar (n / 100000), digitChar (n / 10000), digitChar (n / 1000),
   digitChar (n / 100), digitChar (n / 10), digitChar n]

/-- The year field of `toISOString`: four digits for `0..9999`, otherwise
the six-digit extended format with an explicit sign. -/
def yearChars (y : Int) : List Char :=
  if 0 ≤ y ∧ y ≤ 9999 then pad4c y.toNat
  else if y < 0 then '-' :: pad6c (-y).toNat
  else '+' :: pad6c y.toNat

/-- The `YYYY-MM-DD` rendering of a day number, as produced by
`toISOString().split('T')[0]`. -/
def isoDateChars (day : Int) : List Char :=
  yearChars (civilYear day) ++
    ('-' :: pad2c (civilMonth (civilDoe day))) ++
    ('-' :: pad2c (civilDayOfMonth (civilDoe day)))

/-- `getCurrentDateKey`: `new Date().toISOString().split('T')[0]`.
`toISOString` prints the UTC calendar fields, so the timezone offset of the
instant is (deliberately, per the code) ignored. -/
def getCurrentDateKey (now : Instant) : String :=
  String.mk (isoDateChars (Int.ediv now.ms 86400000))

/-- Modelled from the spec: the day key the specification describes, namely
"today's date in local time" — the calendar date after shifting the clock by
the local timezone offset.  Used only to compare against the code's
behavior. -/
def localDateKeySpec (now : Instant) : String :=
  String.mk (isoDateChars (Int.ediv (now.ms - now.tzOffsetMin * 60000) 86400000))

/-! ### JSON values written and read by the tracker

`saveCompletedTasks` writes `JSON.stringify([...set])`, an array of strings;
`setStoredCoordinates` writes a two-field object.  The parsers below model
`JSON.parse` restricted to exactly those canonical shapes; any other input
is treated as a parse failure (in the browser, a non-canonical but valid
JSON text would also parse — none of the claims depends on such inputs). -/

/-- `JSON.stringify` escaping of one character inside a string literal. -/
def escChar (c : Char) : List Char :=
  if c = '"' then ['\\', '"']
  else if c = '\\' then ['\\', '\\']
  else if c = '\x08' then ['\\', 'b']
  else if c = '\x09' then ['\\', 't']
  else if c = '\x0a' then ['\\', 'n']
  else if c = '\x0c' then ['\\', 'f']
  else if c = '\x0d' then ['\\', 'r']
  else if c.toNat < 32 then
    ['\\', 'u', '0', '0', digitChar (c.toNat / 16), digitChar c.toNat]
  else [c]

/-- `JSON.stringify` of one string. -/
def jsonQuote (s : String) : String :=
  String.mk ('"' :: s.data.foldr (fun c acc => escChar c ++ acc) ['"'])

/-- `JSON.stringify([...])` of an array of strings (no whitespace). -/
def stringifyStringArray (l : List String) : String :=
  "[" ++ String.intercalate "," (l.map jsonQuote) ++ "]"

/-- Scan a JSON string literal body up to its closing quote, unescaping
`\"` and `\\`; returns the decoded characters and the rest of the input. -/
def scanString : List Char → Option (List Char × List Char)
  | [] => none
  | c :: cs =>
    if c = '"' then some ([], cs)
    else if c = '\\' then
      match cs with
      | [] => none
      | e :: cs' =>
        if e = '"' ∨ e = '\\' then
          match scanString cs' with
          | some (acc, rest) => some (e :: acc, rest)
          | none => none
        else none
    else
      match scanString cs with
      | some (acc, rest) => some (c :: acc, rest)
      | none => none

/-- Parse the elements of a string array after the opening quote of the
first element; the whole input must be consumed. -/
def parseElems : Nat → List Char → Option (List String)
  | 0, _ => none
  | fuel + 1, cs =>
    match scanString cs with
    | none => none
    | some (acc, rest) =>
      match rest with
      | [] => none
      | r :: rs =>
        if r = ']' then (if rs = [] then some [String.mk acc] else none)
        else if r = ',' then
          match rs with
          | [] => none
          | q :: rs' =>
            if q = '"' then (parseElems fuel rs').map (fun l => String.mk acc :: l)
            else none
        else none

/-- `JSON.parse` of a complete array-of-strings document. -/
def parseJsonStringArray (s : String) : Option (List String) :=
  match s.data with
  | ['[', ']'] => some []
  | '[' :: c :: cs => if c = '"' then parseElems (s.data.length + 1) cs else none
  | _ => none

/-- Decimal digit test. -/
def isDigitCh (c : Char) : Bool := decide ('0' ≤ c ∧ c ≤ '9')

/-- Value of one decimal digit character. -/
def digitVal (c : Char) : Nat := c.toNat - 48

/-- Numeric value of a digit string. -/
def digitsToNat (ds : List Char) : Nat := ds.foldl (fun a c => a * 10 + digitVal c) 0

/-- Parse a JSON number of the shape `-?digits(.digits)?` into a rational. -/
def parseNumber (cs : List Char) : Option (ℚ × List Char) :=
  let (neg, cs1) :=
    match cs with
    | c :: rest => if c = '-' then (true, rest) else (false, cs)
    | [] => (false, cs)
  let ds := cs1.takeWhile isDigitCh
  let cs2 := cs1.dropWhile isDigitCh
  if ds = [] then none
  else
    let ip : ℚ := (digitsToNat ds : ℚ)
    let finish : ℚ → List Char → Option (ℚ × List Char) :=
      fun v rest => some ((if neg then -v else v), rest)
    match cs2 with
    | c :: cs3 =>
      if c = '.' then
        let fs := cs3.takeWhile isDigitCh
        let cs4 := cs3.dropWhile isDigitCh
        if fs = [] then none
        else finish (ip + (digitsToNat fs : ℚ) / ((10 : ℚ) ^ fs.length)) cs4
      else finish ip cs2
    | [] => finish ip cs2

/-- Match a literal character sequence, returning the rest of the input. -/
def expectChars : List Char → List Char → Option (List Char)
  | [], cs => some cs
  | _ :: _, [] => none
  | p :: ps, c :: cs => if c = p then expectChars ps cs else none

/-- `JSON.parse` of a coordinate object in the canonical shape written by
`setStoredCoordinates`. -/
def parseJsonCoordinates (s : String) : Option Coordinates :=
  match expectChars ('\x7b' :: "\"latitude\":".data) s.data with
  | none => none
  | some cs1 =>
    match parseNumber cs1 with
    | none => none
    | some (lat, cs2) =>
      match expectChars (",\"longitude\":".data) cs2 with
      | none => none
      | some cs3 =>
        match parseNumber cs3 with
        | none => none
        | some (lon, cs4) => if cs4 = ['\x7d'] then some ⟨lat, lon⟩ else none

/-! ### The tracker state and the Completion Tracker -/

/-- The mutable fields of a `DailyTracker` instance that the claims are
about, together with the `localStorage` snapshot it works against. -/
structure TrackerState where
  schedule : Schedule
  completedTasks : List String
  storageKey : String
  storage : Storage
  currentCoordinates : Coordinates
deriving DecidableEq, Repr

/-- `Set.prototype.add`: append if absent (a present element keeps its
position). -/
def setAdd (l : List String) (x : String) : List String :=
  if l.contains x then l else l ++ [x]

/-- `loadCompletedTasks`: read `localStorage[this.storageKey]`; a falsy
(absent or empty) value leaves the in-memory set unchanged; otherwise the
value is fed to `JSON.parse` with no surrounding try/catch, so a malformed
value makes the whole call throw (`Except.error`).  `new Set(array)`
deduplicates, keeping first occurrences. -/
def loadCompletedTasks (st : TrackerState) : Except String TrackerState :=
  match getItem st.storage st.storageKey with
  | none => Except.ok st
  | some saved =>
    if saved = "" then Except.ok st
    else
      match parseJsonStringArray saved with
      | some ids => Except.ok { st with completedTasks := ids.foldl setAdd [] }
      | none => Except.error "SyntaxError: JSON.parse"

/-- `saveCompletedTasks`: `localStorage.setItem(this.storageKey,
JSON.stringify([...this.completedTasks]))`. -/
def saveCompletedTasks (st : TrackerState) : TrackerState :=
  { st with storage := setItem st.storage st.storageKey (stringifyStringArray st.completedTasks) }

/-- `getStoredCoordinates`: read `weather_location_<today>`; a falsy value
yields the default coordinates; otherwise `JSON.parse` with no try/catch,
so a malformed value throws. -/
def getStoredCoordinates (storage : Storage) (today : String) : Except String Coordinates :=
  match getItem storage ("weather_location_" ++ today) with
  | some stored =>
    if stored = "" then Except.ok defaultCoordinates
    else
      match parseJsonCoordinates stored with
      | some c => Except.ok c
      | none => Except.error "SyntaxError: JSON.parse"
  | none => Except.ok defaultCoordinates

/-- `Object.values(schedule).reduce((total, section) => total + section.tasks.length, 0)`. -/
def totalTasksOf (schedule : Schedule) : Nat :=
  schedule.foldl (fun total s => total + s.2.tasks.length) 0

/-- The percentage computed inside `updateProgress`:
`totalTasks > 0 ? (completedCount / totalTasks) * 100 : 0`. -/
def updateProgressPct (st : TrackerState) : ℚ :=
  if 0 < totalTasksOf st.schedule then
    ((st.completedTasks.length : ℚ) / (totalTasksOf st.schedule : ℚ)) * 100
  else 0

/-- Modelled from the spec's words (§4.2): `percentage = completedCount /
totalTaskCount * 100`, defined as `0` when `totalTaskCount == 0`. -/
def specPercentage (completed total : Nat) : ℚ :=
  if total = 0 then 0 else ((completed : ℚ) / (total : ℚ)) * 100

/-- Celebration intensity tiers of `celebrateTaskCompletion`. -/
inductive Tier | basic | big | mega
deriving DecidableEq, Repr

/-- The decisions taken by `celebrateTaskCompletion` (animations elided):
recompute the percentage from the current (post-add) set, pick a tier
(`>=80` mega, `>=50` big, else basic), and a milestone message exactly at
50, 80 and 100. -/
def celebrateTaskCompletion (st : TrackerState) : Tier × Option (String × String) :=
  let totalTasks := totalTasksOf st.schedule
  let percentage : ℚ :=
    if 0 < totalTasks then ((st.completedTasks.length : ℚ) / (totalTasks : ℚ)) * 100 else 0
  let tier : Tier :=
    if 80 ≤ percentage then Tier.mega
    else if 50 ≤ percentage then Tier.big
    else Tier.basic
  let milestone : Option (String × String) :=
    if percentage = 50 then some ("Halfway there! 🎉", "great")
    else if percentage = 80 then some ("Almost done! You\x27re crushing it! 🚀", "amazing")
    else if percentage = 100 then some ("Perfect day completed! 🏆✨", "perfect")
    else none
  (tier, milestone)

/-- The observable outcome of one `toggleTask` call: the new state, the JS
return value (`none` models `undefined` — the function body has no `return`
statement), and the celebration decisions if `celebrateTaskCompletion` was
invoked. -/
structure ToggleOutcome where
  state : TrackerState
  retVal : Option Bool
  celebration : Option (Tier × Option (String × String))
deriving DecidableEq, Repr

/-- `toggleTask(taskId)`: delete the id if present, else add it (appending
at the end of the insertion-ordered set) and celebrate; then
`saveCompletedTasks()` write-through.  DOM updates are elided. -/
def toggleTask (st : TrackerState) (taskId : String) : ToggleOutcome :=
  if st.completedTasks.contains taskId then
    let st1 : TrackerState := { st with completedTasks := st.completedTasks.erase taskId }
    { state := saveCompletedTasks st1, retVal := none, celebration := none }
  else
    let st1 : TrackerState := { st with completedTasks := st.completedTasks ++ [taskId] }
    { state := saveCompletedTasks st1, retVal := none,
      celebration := some (celebrateTaskCompletion st1) }

/-! ### Weather widget -/

/-- `getWeatherCondition`: map an Open-Meteo weather code to a condition
category. -/
def getWeatherCondition (code : Int) : String :=
  if code = 0 ∨ code = 1 then "clear"
  else if code = 2 ∨ code = 3 then "clouds"
  else if 51 ≤ code ∧ code ≤ 65 then "rain"
  else if 71 ≤ code ∧ code ≤ 75 then "snow"
  else if code = 95 then "thunderstorm"
  else "clear"

/-- `Math.round`: round half towards positive infinity. -/
def jsRound (q : ℚ) : Int := Int.floor (q + 1 / 2)

/-- `calculateTempPosition(current, low, high)`. -/
def calculateTempPosition (current low high : ℚ) : ℚ :=
  if high ≤ low then 50
  else max 5 (min 95 ((current - low) / (high - low) * 100))

/-- The weather snapshot produced by `getMockWeatherData` (the location
lookup is a network call, passed in as a parameter). -/
structure MockWeather where
  temperature : Int
  temperatureF : Int
  high : Int
  low : Int
  highF : Int
  lowF : Int
  description : Option String
  condition : String
  uvIndex : Int
  humidity : Int
  location : String
deriving DecidableEq, Repr

/-- `getMockWeatherData`, with the six `Math.random()` draws made explicit
(each is a value in `[0, 1)`). -/
def getMockWeatherData (r1 r2 r3 r4 r5 r6 : ℚ) (locationName : String) : MockWeather :=
  let tempC := jsRound (18 + r1 * 15)
  let tempF := jsRound ((tempC : ℚ) * 9 / 5 + 32)
  let highC := tempC + jsRound (r2 * 5 + 2)
  let lowC := tempC - jsRound (r3 * 5 + 2)
  let highF := jsRound ((highC : ℚ) * 9 / 5 + 32)
  let lowF := jsRound ((lowC : ℚ) * 9 / 5 + 32)
  { temperature := tempC, temperatureF := tempF, high := highC, low := lowC,
    highF := highF, lowF := lowF,
    description := ["Sunny", "Partly Cloudy", "Cloudy", "Light Rain"][(Int.floor (r4 * 4)).toNat]?,
    condition := "clear",
    uvIndex := jsRound (1 + r5 * 10),
    humidity := jsRound (40 + r6 * 40),
    location := locationName }

/-! ### Quote widget -/

/-- `ToInt32`: reduce an integer to the signed 32-bit range, as `x & x`
and the shift operators do in JS. -/
def toInt32 (n : Int) : Int :=
  let r := n % 4294967296
  if r < 2147483648 then r else r - 4294967296

/-- One loop iteration of `hashCode`:
`hash = ((hash << 5) - hash) + char; hash = hash & hash`.  The shift acts
on the 32-bit value, the outer sum is exact in doubles (magnitude below
2^53), and the `&` reduces back to signed 32 bits. -/
def jsStep (h c : Int) : Int := toInt32 (toInt32 (h * 32) - h + c)

/-- Modelled from the spec's words (§4.4): `hash = hash*31 + charCode`,
wrapped to a signed 32-bit integer at each step. -/
def specHashStep (h c : Int) : Int := toInt32 (h * 31 + c)

/-- UTF-16 code units of one character (what `charCodeAt` iterates). -/
def charUnits (c : Char) : List Nat :=
  let n := c.toNat
  if n < 65536 then [n]
  else [55296 + (n - 65536) / 1024, 56320 + (n - 65536) % 1024]

/-- UTF-16 code units of a string. -/
def utf16Units (s : String) : List Nat := (s.data.map charUnits).flatten

/-- `hashCode(str)`. -/
def hashCode (s : String) : Int :=
  (utf16Units s).foldl (fun h c => jsStep h (c : Int)) 0

/-- The spec-worded hash, for comparison with `hashCode`. -/
def specHash (s : String) : Int :=
  (utf16Units s).foldl (fun h c => specHashStep h (c : Int)) 0

/-- The fixed ordered quote catalog of `fetchDailyQuote`. -/
def quotes : List Quote :=
  [⟨"Progress, not perfection, is the goal.", "Self-Care Wisdom"⟩,
   ⟨"Small steps daily lead to big changes yearly.", "James Clear"⟩,
   ⟨"You don\x27t have to be perfect, you just have to be consistent.", "Daily Motivation"⟩,
   ⟨"Self-care is not selfish. You cannot serve from an empty vessel.", "Eleanor Brown"⟩,
   ⟨"The secret of getting ahead is getting started.", "Mark Twain"⟩,
   ⟨"Your only limit is your mind.", "Motivational"⟩,
   ⟨"Every accomplishment starts with the decision to try.", "Gail Devers"⟩]

/-- `fetchDailyQuote` (Promise wrapper elided):
`quoteIndex = hashCode(dateKey) % quotes.length` (JS `%` truncates towards
zero, keeping the dividend's sign), then `quotes[Math.abs(quoteIndex)]`. -/
def fetchDailyQuote (dateKey : String) : Option Quote :=
  quotes[(Int.tmod (hashCode dateKey) (quotes.length : Int)).natAbs]?

/-! ### Day rollover -/

/-- Boolean list-level test that `pat` begins `l`. -/
def beginsL : List Char → List Char → Bool
  | _, [] => true
  | [], _ :: _ => false
  | c :: cs, p :: ps => c == p && beginsL cs ps

/-- `String.prototype.startsWith`. -/
def strBegins (s pat : String) : Bool := beginsL s.data pat.data

/-- `String.prototype.replace(pat, '')`: remove the first occurrence of a
literal pattern (no-op when the pattern does not occur). -/
def replaceFirst : List Char → List Char → List Char
  | [], _ => []
  | c :: cs, pat =>
    if beginsL (c :: cs) pat then List.drop pat.length (c :: cs)
    else c :: replaceFirst cs pat

/-- `resetLocationToDefault`: remove every `weather_location_*` storage key
except the current day's, and reset the in-memory coordinates to the
default. -/
def resetLocationToDefault (st : TrackerState) (now : Instant) : TrackerState :=
  { st with
    storage := st.storage.filter (fun p =>
      !(strBegins p.1 "weather_location_" &&
        p.1 != ("weather_location_" ++ getCurrentDateKey now))),
    currentCoordinates := defaultCoordinates }

/-- The body of the 60-second poll in `setupMidnightRefresh`: when the
recomputed day key no longer matches the one embedded in `storageKey`,
reset the location and reload (the `Bool` records whether
`window.location.reload()` was invoked). -/
def midnightPollCheck (st : TrackerState) (now : Instant) : TrackerState × Bool :=
  if getCurrentDateKey now ≠ String.mk (replaceFirst st.storageKey.data "dailyTracker_".data) then
    (resetLocationToDefault st now, true)
  else (st, false)

/-! ### Concrete states used by counterexamples and witnesses -/

/-- A small two-task schedule for concrete runs. -/
def exSchedule : Schedule :=
  [("morning", ⟨"fa-sun", "Morning Routine",
      [⟨"t1", "fa-tooth", "Brush teeth"⟩, ⟨"t2", "fa-shower", "Shower"⟩]⟩)]

/-- A fresh tracker for 2025-01-01 with nothing completed. -/
def exState : TrackerState :=
  ⟨exSchedule, [], "dailyTracker_2025-01-01", [], defaultCoordinates⟩

/-- A tracker whose set `["a", "b"]` is already persisted in order. -/
def exStateAB : TrackerState :=
  ⟨exSchedule, ["a", "b"], "dailyTracker_2025-01-01",
   [("dailyTracker_2025-01-01", "[\"a\",\"b\"]")], defaultCoordinates⟩

/-- A tracker whose persisted completion record is not valid JSON. -/
def exMalformedState : TrackerState :=
  ⟨exSchedule, [], "dailyTracker_2025-01-01",
   [("dailyTracker_2025-01-01", "not json")], defaultCoordinates⟩

/-- A storage snapshot whose coordinate record is not valid JSON. -/
def exMalformedWeatherStorage : Storage :=
  [("weather_location_2025-01-01", "not json")]

/-- A tracker session opened on 1969-12-31 (UTC), with a location record
for that day, its completion record, and a location record for the next
day already present. -/
def exRolloverState : TrackerState :=
  ⟨[], [], "dailyTracker_1969-12-31",
   [("weather_location_1969-12-31", "loc-old"),
    ("dailyTracker_1969-12-31", "[\"t1\"]"),
    ("weather_location_1970-01-01", "loc-new")], ⟨1, 2⟩⟩

/-! ### Helper lemmas -/

/-- Bridge between the boolean `List.contains` used by the code model and
propositional membership. -/
theorem contains_eq_decide_mem (l : List String) (x : String) :
    l.contains x = decide (x ∈ l) := by
  simp [List.contains, List.elem_eq_mem]

/-- `foldl`-accumulated totals equal the sum of the mapped list. -/
theorem totalTasksOf_eq_sum (schedule : Schedule) :
    totalTasksOf schedule = (schedule.map (fun p => p.2.tasks.length)).sum := by
  have h : ∀ (l : Schedule) (n : Nat),
      l.foldl (fun t s => t + s.2.tasks.length) n
        = n + (l.map (fun p => p.2.tasks.length)).sum := by
    intro l
    induction l with
    | nil => intro n; simp
    | cons a l ih => intro n; simp [ih]; omega
  simpa [totalTasksOf] using h schedule 0

/-- Updating an existing key puts `(k, v)` at its position. -/
theorem find?_update (l : Storage) (k v : String)
    (h : l.any (fun p => p.1 == k) = true) :
    (l.map (fun p => if p.1 == k then (k, v) else p)).find? (fun p => p.1 == k)
      = some (k, v) := by
  induction l with
  | nil => simp at h
  | cons a l ih =>
    rw [List.map_cons]
    by_cases hak : a.1 = k
    · have he : (if (a.1 == k) = true then (k, v) else a) = (k, v) := by simp [hak]
      rw [he, List.find?_cons_of_pos _ (by simp)]
    · have he : (if (a.1 == k) = true then (k, v) else a) = a := by simp [hak]
      rw [he, List.find?_cons_of_neg _ (by simp [hak])]
      exact ih (by simpa [hak] using h)

/-- `find?` skips over a prefix in which nothing matches. -/
theorem find?_append_of_none {α : Type} (l l' : List α) (p : α → Bool)
    (h : l.find? p = none) : (l ++ l').find? p = l'.find? p := by
  induction l with
  | nil => simp
  | cons a l ih =>
    cases hp : p a with
    | true =>
      rw [List.find?_cons_of_pos _ hp] at h
      exact absurd h (by simp)
    | false =>
      rw [List.find?_cons_of_neg _ (by simp [hp])] at h
      rw [List.cons_append, List.find?_cons_of_neg _ (by simp [hp])]
      exact ih h

/-- Reading back a key just written returns the written value. -/
theorem getItem_setItem_self (l : Storage) (k v : String) :
    getItem (setItem l k v) k = some v := by
  unfold setItem getItem
  by_cases hany : l.any (fun p => p.1 == k) = true
  · rw [if_pos hany, find?_update l k v hany]
    rfl
  · rw [if_neg hany]
    have hnone : l.find? (fun p => p.1 == k) = none := by
      rw [List.find?_eq_none]
      intro x hx hpx
      exact hany (List.any_eq_true.mpr ⟨x, hx, hpx⟩)
    rw [find?_append_of_none _ _ _ hnone, List.find?_cons_of_pos _ (by simp)]
    rfl

/-- After filtering, a key all of whose entries are dropped reads as absent. -/
theorem find?_filter_none (l : Storage) (p : String × String → Bool) (k : String)
    (h : ∀ x : String × String, x.1 = k → p x = false) :
    (l.filter p).find? (fun x => x.1 == k) = none := by
  induction l with
  | nil => rfl
  | cons a l ih =>
    by_cases hpa : p a = true
    · rw [List.filter_cons_of_pos hpa, List.find?_cons_of_neg]
      · exact ih
      · simp only [beq_iff_eq]
        intro hak
        rw [h a hak] at hpa
        exact absurd hpa (by simp)
    · rw [List.filter_cons_of_neg (by simpa using hpa)]
      exact ih

/-- After filtering, a key all of whose entries are kept reads unchanged. -/
theorem find?_filter_keep (l : Storage) (p : String × String → Bool) (k : String)
    (h : ∀ x : String × String, x.1 = k → p x = true) :
    (l.filter p).find? (fun x => x.1 == k) = l.find? (fun x => x.1 == k) := by
  induction l with
  | nil => rfl
  | cons a l ih =>
    by_cases hak : a.1 = k
    · rw [List.filter_cons_of_pos (h a hak),
        List.find?_cons_of_pos _ (by simp [hak]),
        List.find?_cons_of_pos _ (by simp [hak])]
    · by_cases hpa : p a = true
      · rw [List.filter_cons_of_pos hpa,
          List.find?_cons_of_neg _ (by simp [hak]),
          List.find?_cons_of_neg _ (by simp [hak])]
        exact ih
      · rw [List.filter_cons_of_neg (by simpa using hpa),
          List.find?_cons_of_neg _ (by simp [hak])]
        exact ih

/-- In a duplicate-free set, erasing an element removes its membership. -/
theorem contains_erase_self (l : List String) (hnd : l.Nodup) (x : String) :
    (l.erase x).contains x = false := by
  rw [contains_eq_decide_mem]
  simp only [decide_eq_false_iff_not]
  intro hm
  exact absurd ((List.Nodup.mem_erase_iff hnd).mp hm).1 (by simp)

/-- Appending an element makes it a member. -/
theorem contains_append_self (l : List String) (x : String) :
    (l ++ [x]).contains x = true := by
  rw [contains_eq_decide_mem]
  simp

/-- Erasing one element leaves the membership of others unchanged. -/
theorem contains_erase_ne (l : List String) {x y : String} (h : x ≠ y) :
    (l.erase y).contains x = l.contains x := by
  rw [contains_eq_decide_mem, contains_eq_decide_mem]
  simp [List.mem_erase_of_ne h]

/-- Appending one element leaves the membership of others unchanged. -/
theorem contains_append_ne (l : List String) {x y : String} (h : x ≠ y) :
    (l ++ [y]).contains x = l.contains x := by
  rw [contains_eq_decide_mem, contains_eq_decide_mem]
  simp [h]

/-! ### C2 -/

/-- C2: at clock instant 1970-01-01T02:00Z with `getTimezoneOffset() = 360`
(the Denver offset matching the app's default location), the code's day key
is the UTC date `1970-01-01`, while the date in the user's local time zone
is `1969-12-31`; so `getCurrentDateKey` does not return the local date the
claim (and the rest of `setupMidnightRefresh`) assumes. -/
theorem dateKey_is_utc_not_local :
    getCurrentDateKey ⟨7200000, 360⟩ = "1970-01-01"
    ∧ localDateKeySpec ⟨7200000, 360⟩ = "1969-12-31"
    ∧ getCurrentDateKey ⟨7200000, 360⟩ ≠ localDateKeySpec ⟨7200000, 360⟩ := by
  refine ⟨by decide, by decide, by decide⟩

/-! ### C3 -/

/-- C3: the percentage computed by `updateProgress` equals the spec's pure
function `completedCount / totalTaskCount * 100` where `totalTaskCount`
sums the task counts of all sections and `completedCount` is the size of
the completion set, with percentage `0` when `totalTaskCount = 0`; and
`percentage(0, N) = 0`, `percentage(N, N) = 100` for every `N > 0`. -/
theorem progress_percentage_spec :
    (∀ st : TrackerState,
        updateProgressPct st =
          specPercentage st.completedTasks.length
            ((st.schedule.map (fun p => p.2.tasks.length)).sum))
    ∧ (∀ N : Nat, 0 < N → specPercentage 0 N = 0 ∧ specPercentage N N = 100) := by
  constructor
  · intro st
    rw [updateProgressPct, specPercentage, ← totalTasksOf_eq_sum]
    rcases Nat.eq_zero_or_pos (totalTasksOf st.schedule) with h | h
    · simp [h]
    · rw [if_pos h, if_neg (by omega)]
  · intro N hN
    refine ⟨by simp [specPercentage], ?_⟩
    rw [specPercentage, if_neg (by omega), div_self (by exact_mod_cast hN.ne')]
    norm_num

/-- C3 witness: the boundary identities at `N = 4`. -/
theorem progress_percentage_spec_witness :
    0 < 4 ∧ specPercentage 0 4 = 0 ∧ specPercentage 4 4 = 100 :=
  ⟨by decide, progress_percentage_spec.2 4 (by decide)⟩

/-! ### C8 -/

/-- C8: `getWeatherCondition` maps codes 0–1 to clear, 2–3 to clouds,
51–65 to rain, 71–75 to snow, 95 to thunderstorm, and everything else to
clear. -/
theorem weather_condition_mapping (code : Int) :
    ((code = 0 ∨ code = 1) → getWeatherCondition code = "clear")
    ∧ ((code = 2 ∨ code = 3) → getWeatherCondition code = "clouds")
    ∧ (51 ≤ code → code ≤ 65 → getWeatherCondition code = "rain")
    ∧ (71 ≤ code → code ≤ 75 → getWeatherCondition code = "snow")
    ∧ (code = 95 → getWeatherCondition code = "thunderstorm")
    ∧ (¬(code = 0 ∨ code = 1) → ¬(code = 2 ∨ code = 3) →
        ¬(51 ≤ code ∧ code ≤ 65) → ¬(71 ≤ code ∧ code ≤ 75) → code ≠ 95 →
        getWeatherCondition code = "clear") := by
  unfold getWeatherCondition
  refine ⟨?_, ?_, ?_, ?_, ?_, ?_⟩ <;> intros <;> split_ifs <;>
    first | rfl | (exfalso; omega)

/-- C8 witness: the six representative codes named by the spec. -/
theorem weather_condition_mapping_witness :
    getWeatherCondition 0 = "clear" ∧ getWeatherCondition 2 = "clouds"
    ∧ getWeatherCondition 61 = "rain" ∧ getWeatherCondition 71 = "snow"
    ∧ getWeatherCondition 95 = "thunderstorm" ∧ getWeatherCondition 999 = "clear" :=
  ⟨(weather_condition_mapping 0).1 (Or.inl rfl),
   (weather_condition_mapping 2).2.1 (Or.inl rfl),
   (weather_condition_mapping 61).2.2.1 (by decide) (by decide),
   (weather_condition_mapping 71).2.2.2.1 (by decide) (by decide),
   (weather_condition_mapping 95).2.2.2.2.1 rfl,
   (weather_condition_mapping 999).2.2.2.2.2 (by decide) (by decide) (by decide)
     (by decide) (by decide)⟩

/-! ### C4 -/

/-- C4 counterexample: `toggleTask` does not return the new membership
state of the toggled id — its body has no `return` statement, so the call
evaluates to `undefined` (`none`), not to the membership boolean. -/
theorem toggle_does_not_return_membership :
    (toggleTask exState "t1").retVal
      ≠ some ((toggleTask exState "t1").state.completedTasks.contains "t1") := by
  decide

/-- C4 (amended): `toggleTask` flips the membership of the toggled id,
leaves every other id unchanged, persists the updated set immediately
under the unchanged storage key, and returns `undefined` (not the new
membership state). -/
theorem toggle_flips_persists_returns_undefined (st : TrackerState) (id : String)
    (hnd : st.completedTasks.Nodup) :
    (toggleTask st id).state.completedTasks.contains id
        = !(st.completedTasks.contains id)
    ∧ (∀ x : String, x ≠ id →
        (toggleTask st id).state.completedTasks.contains x
          = st.completedTasks.contains x)
    ∧ (toggleTask st id).state.storageKey = st.storageKey
    ∧ getItem (toggleTask st id).state.storage st.storageKey
        = some (stringifyStringArray (toggleTask st id).state.completedTasks)
    ∧ (toggleTask st id).retVal = none := by
  by_cases hc : st.completedTasks.contains id = true
  · have hT : toggleTask st id =
        { state := saveCompletedTasks { st with completedTasks := st.completedTasks.erase id },
          retVal := none, celebration := none } := by
      unfold toggleTask
      rw [if_pos hc]
    rw [hT]
    simp only [saveCompletedTasks]
    refine ⟨?_, ?_, by trivial, getItem_setItem_self _ _ _, by trivial⟩
    · rw [contains_erase_self _ hnd, hc]
      rfl
    · intro x hx
      exact contains_erase_ne _ hx
  · have hcf : st.completedTasks.contains id = false := by
      simpa using hc
    have hT : toggleTask st id =
        { state := saveCompletedTasks { st with completedTasks := st.completedTasks ++ [id] },
          retVal := none,
          celebration := some (celebrateTaskCompletion
            { st with completedTasks := st.completedTasks ++ [id] }) } := by
      unfold toggleTask
      rw [if_neg hc]
    rw [hT]
    simp only [saveCompletedTasks]
    refine ⟨?_, ?_, by trivial, getItem_setItem_self _ _ _, by trivial⟩
    · rw [contains_append_self, hcf]
      rfl
    · intro x hx
      exact contains_append_ne _ hx

/-- C4 witness: the amended toggle contract run on the fresh two-task
tracker with id `t1` (frame checked at the untouched id `t2`). -/
theorem toggle_flips_persists_returns_undefined_witness :
    (toggleTask exState "t1").state.completedTasks.contains "t1"
        = !(exState.completedTasks.contains "t1")
    ∧ (toggleTask exState "t1").state.completedTasks.contains "t2"
        = exState.completedTasks.contains "t2"
    ∧ (toggleTask exState "t1").state.storageKey = exState.storageKey
    ∧ getItem (toggleTask exState "t1").state.storage exState.storageKey
        = some (stringifyStringArray (toggleTask exState "t1").state.completedTasks)
    ∧ (toggleTask exState "t1").retVal = none := by
  have h := toggle_flips_persists_returns_undefined exState "t1" (by decide)
  exact ⟨h.1, h.2.1 "t2" (by decide), h.2.2.1, h.2.2.2.1, h.2.2.2.2⟩

/-! ### C5 -/

/-- Permutation-invariance of the boolean membership test. -/
theorem contains_eq_of_perm {l₁ l₂ : List String} (h : List.Perm l₁ l₂) (x : String) :
    l₁.contains x = l₂.contains x := by
  rw [contains_eq_decide_mem, contains_eq_decide_mem]
  simp [h.mem_iff]

/-- The state after a toggle of a present id. -/
theorem toggleTask_state_of_contains (st : TrackerState) (id : String)
    (hc : st.completedTasks.contains id = true) :
    (toggleTask st id).state =
      { st with completedTasks := st.completedTasks.erase id,
                storage := setItem st.storage st.storageKey
                  (stringifyStringArray (st.completedTasks.erase id)) } := by
  unfold toggleTask saveCompletedTasks
  rw [if_pos hc]

/-- The state after a toggle of an absent id. -/
theorem toggleTask_state_of_not_contains (st : TrackerState) (id : String)
    (hc : st.completedTasks.contains id = false) :
    (toggleTask st id).state =
      { st with completedTasks := st.completedTasks ++ [id],
                storage := setItem st.storage st.storageKey
                  (stringifyStringArray (st.completedTasks ++ [id])) } := by
  unfold toggleTask saveCompletedTasks
  rw [if_neg (by rw [hc]; simp)]

/-- C5 counterexample: with the persisted value `["a","b"]`, toggling `a`
twice restores membership but persists `["b","a"]` — the toggled id moved
to the end, so the persisted value differs from the pre-toggle one. -/
theorem toggle_twice_reorders_persisted :
    getItem (toggleTask (toggleTask exStateAB "a").state "a").state.storage
        "dailyTracker_2025-01-01" = some "[\"b\",\"a\"]"
    ∧ getItem exStateAB.storage "dailyTracker_2025-01-01" = some "[\"a\",\"b\"]"
    ∧ getItem (toggleTask (toggleTask exStateAB "a").state "a").state.storage
        "dailyTracker_2025-01-01"
      ≠ getItem exStateAB.storage "dailyTracker_2025-01-01" := by
  refine ⟨by decide, by decide, by decide⟩

/-- C5 (amended): toggling an id twice restores the membership state of
every id and persists a list holding exactly the same ids (a permutation);
when the id was initially absent the persisted value is exactly the
pre-toggle serialization, but an initially present id is re-appended at
the end, so the stored order (hence the stored string) can change. -/
theorem toggle_twice_membership_restored (st : TrackerState) (id : String)
    (hnd : st.completedTasks.Nodup) :
    (∀ x : String,
        (toggleTask (toggleTask st id).state id).state.completedTasks.contains x
          = st.completedTasks.contains x)
    ∧ List.Perm (toggleTask (toggleTask st id).state id).state.completedTasks
        st.completedTasks
    ∧ (st.completedTasks.contains id = false →
        (toggleTask (toggleTask st id).state id).state.completedTasks
            = st.completedTasks
        ∧ getItem (toggleTask (toggleTask st id).state id).state.storage st.storageKey
            = some (stringifyStringArray st.completedTasks))
    ∧ (st.completedTasks.contains id = true →
        (toggleTask (toggleTask st id).state id).state.completedTasks
          = st.completedTasks.erase id ++ [id]) := by
  by_cases hc : st.completedTasks.contains id = true
  · have hmem : id ∈ st.completedTasks := by
      simpa [contains_eq_decide_mem] using hc
    rw [toggleTask_state_of_contains st id hc]
    rw [toggleTask_state_of_not_contains _ id (contains_erase_self _ hnd id)]
    dsimp only
    have hperm : List.Perm (st.completedTasks.erase id ++ [id]) st.completedTasks :=
      (List.perm_append_singleton id _).trans (List.perm_cons_erase hmem).symm
    refine ⟨fun x => contains_eq_of_perm hperm x, hperm, ?_, fun _ => rfl⟩
    intro hfalse
    rw [hfalse] at hc
    exact absurd hc (by simp)
  · have hcf : st.completedTasks.contains id = false := by simpa using hc
    have hnm : id ∉ st.completedTasks := by
      simpa [contains_eq_decide_mem] using hcf
    rw [toggleTask_state_of_not_contains st id hcf]
    rw [toggleTask_state_of_contains _ id (contains_append_self _ id)]
    dsimp only
    have herase : (st.completedTasks ++ [id]).erase id = st.completedTasks := by
      rw [List.erase_append_right _ hnm]
      simp
    rw [herase]
    refine ⟨fun x => rfl, List.Perm.refl _, ?_, ?_⟩
    · intro _
      exact ⟨rfl, getItem_setItem_self _ _ _⟩
    · intro htrue
      rw [htrue] at hcf
      exact absurd hcf (by simp)

/-- C5 witness: the amended double-toggle contract on the persisted set
`["a","b"]`, toggling the present id `a`. -/
theorem toggle_twice_membership_restored_witness :
    (toggleTask (toggleTask exStateAB "a").state "a").state.completedTasks.contains "a"
        = exStateAB.completedTasks.contains "a"
    ∧ (toggleTask (toggleTask exStateAB "a").state "a").state.completedTasks
        = exStateAB.completedTasks.erase "a" ++ ["a"] := by
  have h := toggle_twice_membership_restored exStateAB "a" (by decide)
  exact ⟨h.1 "a", h.2.2.2 (by decide)⟩

/-! ### C1 -/

/-- C1 counterexample: with a malformed persisted value, both the
completion-set load and the coordinate read throw — the `JSON.parse`
exception propagates to the caller instead of yielding the empty set or
the default coordinate. -/
theorem load_malformed_json_throws :
    loadCompletedTasks exMalformedState = Except.error "SyntaxError: JSON.parse"
    ∧ getStoredCoordinates exMalformedWeatherStorage "2025-01-01"
        = Except.error "SyntaxError: JSON.parse" := by
  refine ⟨rfl, rfl⟩

/-- C1 (amended): when no value is stored, loading the completion set
leaves it as it was (empty at initialization) and reading the coordinate
returns the default; but when a stored non-empty value fails to parse as
JSON, both operations propagate the parse exception to the caller. -/
theorem load_absent_default_malformed_error (st : TrackerState)
    (storage : Storage) (today s : String) :
    (getItem st.storage st.storageKey = none → loadCompletedTasks st = Except.ok st)
    ∧ (getItem st.storage st.storageKey = some s → s ≠ "" →
        parseJsonStringArray s = none →
        loadCompletedTasks st = Except.error "SyntaxError: JSON.parse")
    ∧ (getItem storage ("weather_location_" ++ today) = none →
        getStoredCoordinates storage today = Except.ok defaultCoordinates)
    ∧ (getItem storage ("weather_location_" ++ today) = some s → s ≠ "" →
        parseJsonCoordinates s = none →
        getStoredCoordinates storage today = Except.error "SyntaxError: JSON.parse") := by
  refine ⟨?_, ?_, ?_, ?_⟩
  · intro h
    unfold loadCompletedTasks
    rw [h]
  · intro h hne hp
    unfold loadCompletedTasks
    rw [h]
    dsimp only
    rw [if_neg hne, hp]
  · intro h
    unfold getStoredCoordinates
    rw [h]
  · intro h hne hp
    unfold getStoredCoordinates
    rw [h]
    dsimp only
    rw [if_neg hne, hp]

/-- C1 witness: the four behaviors at concrete storage snapshots (absent
value, and the malformed value `not json`). -/
theorem load_absent_default_malformed_error_witness :
    loadCompletedTasks exState = Except.ok exState
    ∧ loadCompletedTasks exMalformedState = Except.error "SyntaxError: JSON.parse"
    ∧ getStoredCoordinates [] "2025-01-01" = Except.ok defaultCoordinates
    ∧ getStoredCoordinates exMalformedWeatherStorage "2025-01-01"
        = Except.error "SyntaxError: JSON.parse" := by
  have h1 := load_absent_default_malformed_error exState [] "2025-01-01" "not json"
  have h2 := load_absent_default_malformed_error exMalformedState
      exMalformedWeatherStorage "2025-01-01" "not json"
  exact ⟨h1.1 (by decide), h2.2.1 (by decide) (by decide) (by decide),
    h1.2.2.1 (by decide), h2.2.2.2 (by decide) (by decide) (by decide)⟩

/-! ### C7 -/

/-- The 32-bit reduction preserves residues mod 2^32. -/
theorem toInt32_emod (n : Int) : toInt32 n % 4294967296 = n % 4294967296 := by
  simp only [toInt32]
  split_ifs with h <;> omega

/-- Two integers with the same residue mod 2^32 reduce to the same signed
32-bit value. -/
theorem toInt32_congr {a b : Int} (h : a % 4294967296 = b % 4294967296) :
    toInt32 a = toInt32 b := by
  simp only [toInt32]
  split_ifs with h1 h2 h2 <;> omega

/-- One `hashCode` loop iteration equals the spec's
`wrap32(hash * 31 + charCode)`. -/
theorem jsStep_eq_specHashStep (h c : Int) : jsStep h c = specHashStep h c := by
  unfold jsStep specHashStep
  apply toInt32_congr
  have h32 := toInt32_emod (h * 32)
  omega

/-- Folding the code's step equals folding the spec's step. -/
theorem foldl_jsStep_eq (l : List Nat) : ∀ a : Int,
    l.foldl (fun h c => jsStep h (c : Int)) a
      = l.foldl (fun h c => specHashStep h (c : Int)) a := by
  induction l with
  | nil => intro a; rfl
  | cons x l ih => intro a; simp only [List.foldl_cons, jsStep_eq_specHashStep, ih]

/-- `hashCode` follows the spec's recurrence exactly. -/
theorem hashCode_eq_specHash (s : String) : hashCode s = specHash s := by
  unfold hashCode specHash
  exact foldl_jsStep_eq (utf16Units s) 0

/-- JS truncating remainder then `Math.abs` equals `abs` then `mod 7`. -/
theorem natAbs_tmod_seven (a : Int) : (Int.tmod a 7).natAbs = a.natAbs % 7 := by
  cases a with
  | ofNat m => rfl
  | negSucc m =>
    simp [Int.tmod, Int.natAbs_neg]
    omega

/-- C7: quote selection is a pure function of the day key: `hashCode`
follows the recurrence `hash = wrap32(hash * 31 + charCode)` step by step,
the selected index is `abs(hash) mod 7`, and the selection always yields a
quote of the fixed ordered catalog (hence two calls on the same key yield
the identical quote). -/
theorem quote_selection_spec :
    (∀ s : String, hashCode s = specHash s)
    ∧ (∀ s : String, fetchDailyQuote s = quotes[(specHash s).natAbs % 7]?)
    ∧ (∀ s : String, ∃ q : Quote, fetchDailyQuote s = some q ∧ q ∈ quotes) := by
  have hidx : ∀ s : String,
      (Int.tmod (hashCode s) (quotes.length : Int)).natAbs = (specHash s).natAbs % 7 := by
    intro s
    rw [hashCode_eq_specHash]
    exact natAbs_tmod_seven _
  refine ⟨hashCode_eq_specHash, ?_, ?_⟩
  · intro s
    unfold fetchDailyQuote
    rw [hidx s]
  · intro s
    have hlt : (Int.tmod (hashCode s) (quotes.length : Int)).natAbs < quotes.length := by
      rw [hidx s]
      exact Nat.mod_lt _ (by decide)
    unfold fetchDailyQuote
    exact ⟨_, List.getElem?_eq_getElem hlt, List.getElem_mem hlt⟩

/-! ### C10 -/

/-- C10: for every outcome of the random draws, the mock weather snapshot
has `low ≤ temperature - 2` and `temperature + 2 ≤ high`, hence
`low < high`, and `calculateTempPosition` on the snapshot never takes its
degenerate-range branch but returns the clamped interpolation. -/
theorem mock_weather_range_invariant (r1 r2 r3 r4 r5 r6 : ℚ) (loc : String)
    (h2a : 0 ≤ r2) (h2b : r2 < 1) (h3a : 0 ≤ r3) (h3b : r3 < 1) :
    (getMockWeatherData r1 r2 r3 r4 r5 r6 loc).low
        ≤ (getMockWeatherData r1 r2 r3 r4 r5 r6 loc).temperature - 2
    ∧ (getMockWeatherData r1 r2 r3 r4 r5 r6 loc).temperature + 2
        ≤ (getMockWeatherData r1 r2 r3 r4 r5 r6 loc).high
    ∧ (getMockWeatherData r1 r2 r3 r4 r5 r6 loc).low
        < (getMockWeatherData r1 r2 r3 r4 r5 r6 loc).high
    ∧ ¬((getMockWeatherData r1 r2 r3 r4 r5 r6 loc).high
        ≤ (getMockWeatherData r1 r2 r3 r4 r5 r6 loc).low)
    ∧ calculateTempPosition
        ((getMockWeatherData r1 r2 r3 r4 r5 r6 loc).temperature : ℚ)
        ((getMockWeatherData r1 r2 r3 r4 r5 r6 loc).low : ℚ)
        ((getMockWeatherData r1 r2 r3 r4 r5 r6 loc).high : ℚ)
      = max 5 (min 95
          ((((getMockWeatherData r1 r2 r3 r4 r5 r6 loc).temperature : ℚ)
              - ((getMockWeatherData r1 r2 r3 r4 r5 r6 loc).low : ℚ))
            / (((getMockWeatherData r1 r2 r3 r4 r5 r6 loc).high : ℚ)
              - ((getMockWeatherData r1 r2 r3 r4 r5 r6 loc).low : ℚ)) * 100)) := by
  have hk2 : 2 ≤ jsRound (r2 * 5 + 2) := by
    rw [jsRound]
    refine Int.le_floor.mpr ?_
    push_cast
    linarith
  have hk3 : 2 ≤ jsRound (r3 * 5 + 2) := by
    rw [jsRound]
    refine Int.le_floor.mpr ?_
    push_cast
    linarith
  simp only [getMockWeatherData]
  refine ⟨by omega, by omega, by omega, by omega, ?_⟩
  rw [calculateTempPosition, if_neg]
  rw [not_le]
  exact_mod_cast (show (jsRound (18 + r1 * 15) - jsRound (r3 * 5 + 2) : Int)
      < jsRound (18 + r1 * 15) + jsRound (r2 * 5 + 2) by omega)

/-- C10 witness: the invariant at the concrete draws
`r1 = r2 = r3 = r4 = r5 = r6 = 0`. -/
theorem mock_weather_range_invariant_witness :
    (getMockWeatherData 0 0 0 0 0 0 "Denver, CO").low
        ≤ (getMockWeatherData 0 0 0 0 0 0 "Denver, CO").temperature - 2
    ∧ (getMockWeatherData 0 0 0 0 0 0 "Denver, CO").temperature + 2
        ≤ (getMockWeatherData 0 0 0 0 0 0 "Denver, CO").high
    ∧ (getMockWeatherData 0 0 0 0 0 0 "Denver, CO").low
        < (getMockWeatherData 0 0 0 0 0 0 "Denver, CO").high
    ∧ ¬((getMockWeatherData 0 0 0 0 0 0 "Denver, CO").high
        ≤ (getMockWeatherData 0 0 0 0 0 0 "Denver, CO").low)
    ∧ calculateTempPosition
        ((getMockWeatherData 0 0 0 0 0 0 "Denver, CO").temperature : ℚ)
        ((getMockWeatherData 0 0 0 0 0 0 "Denver, CO").low : ℚ)
        ((getMockWeatherData 0 0 0 0 0 0 "Denver, CO").high : ℚ)
      = max 5 (min 95
          ((((getMockWeatherData 0 0 0 0 0 0 "Denver, CO").temperature : ℚ)
              - ((getMockWeatherData 0 0 0 0 0 0 "Denver, CO").low : ℚ))
            / (((getMockWeatherData 0 0 0 0 0 0 "Denver, CO").high : ℚ)
              - ((getMockWeatherData 0 0 0 0 0 0 "Denver, CO").low : ℚ)) * 100)) :=
  mock_weather_range_invariant 0 0 0 0 0 0 "Denver, CO"
    (by norm_num) (by norm_num) (by norm_num) (by norm_num)

/-! ### C6 -/

/-- The components of the celebration decision, in terms of the same
percentage `updateProgress` computes on the same state. -/
theorem celebrate_components (x : TrackerState) :
    (celebrateTaskCompletion x).1
        = (if 80 ≤ updateProgressPct x then Tier.mega
           else if 50 ≤ updateProgressPct x then Tier.big else Tier.basic)
    ∧ ((celebrateTaskCompletion x).2.isSome = true ↔
        (updateProgressPct x = 50 ∨ updateProgressPct x = 80
          ∨ updateProgressPct x = 100)) := by
  unfold celebrateTaskCompletion updateProgressPct
  dsimp only
  constructor
  · rfl
  · split_ifs <;> simp_all

/-- C6: a celebration fires exactly on an incomplete-to-complete
transition (never on un-checking); when it fires, the tier is chosen from
the post-toggle percentage (`< 50` basic, `[50, 80)` big, `>= 80` mega) and
a milestone message is surfaced exactly when that percentage equals 50, 80
or 100 (so at no other value, in particular not at 49, 51, 79, 81 or 99). -/
theorem celebration_tier_milestone_spec (st : TrackerState) (id : String) :
    ((toggleTask st id).celebration.isSome = !(st.completedTasks.contains id))
    ∧ (st.completedTasks.contains id = false →
        ((updateProgressPct (toggleTask st id).state < 50 →
            (toggleTask st id).celebration.map (fun c => c.1) = some Tier.basic)
         ∧ (50 ≤ updateProgressPct (toggleTask st id).state →
            updateProgressPct (toggleTask st id).state < 80 →
            (toggleTask st id).celebration.map (fun c => c.1) = some Tier.big)
         ∧ (80 ≤ updateProgressPct (toggleTask st id).state →
            (toggleTask st id).celebration.map (fun c => c.1) = some Tier.mega)
         ∧ (((toggleTask st id).celebration.bind (fun c => c.2)).isSome = true ↔
              (updateProgressPct (toggleTask st id).state = 50
               ∨ updateProgressPct (toggleTask st id).state = 80
               ∨ updateProgressPct (toggleTask st id).state = 100)))) := by
  by_cases hc : st.completedTasks.contains id = true
  · have hT : toggleTask st id =
        { state := saveCompletedTasks { st with completedTasks := st.completedTasks.erase id },
          retVal := none, celebration := none } := by
      unfold toggleTask
      rw [if_pos hc]
    rw [hT, hc]
    refine ⟨rfl, ?_⟩
    intro hfalse
    exact absurd hfalse (by simp)
  · have hcf : st.completedTasks.contains id = false := by simpa using hc
    have hT : toggleTask st id =
        { state := saveCompletedTasks { st with completedTasks := st.completedTasks ++ [id] },
          retVal := none,
          celebration := some (celebrateTaskCompletion
            { st with completedTasks := st.completedTasks ++ [id] }) } := by
      unfold toggleTask
      rw [if_neg hc]
    rw [hT, hcf]
    dsimp only
    have hpct : updateProgressPct
        (saveCompletedTasks { st with completedTasks := st.completedTasks ++ [id] })
        = updateProgressPct { st with completedTasks := st.completedTasks ++ [id] } := rfl
    rw [hpct]
    obtain ⟨ht, hm⟩ :=
      celebrate_components { st with completedTasks := st.completedTasks ++ [id] }
    refine ⟨rfl, fun _ => ⟨?_, ?_, ?_, ?_⟩⟩
    · intro hlt
      simp only [Option.map_some']
      rw [ht, if_neg (by linarith), if_neg (by linarith)]
    · intro hge hlt
      simp only [Option.map_some']
      rw [ht, if_neg (by linarith), if_pos hge]
    · intro hge
      simp only [Option.map_some']
      rw [ht, if_pos hge]
    · simpa using hm

/-- C6 witness: toggling `t1` on the fresh two-task tracker takes the
completion count to 1 of 2, i.e. exactly 50%: the celebration fires with
the big tier and the milestone message is surfaced. -/
theorem celebration_tier_milestone_spec_witness :
    (toggleTask exState "t1").celebration.isSome = true
    ∧ (toggleTask exState "t1").celebration.map (fun c => c.1) = some Tier.big
    ∧ ((toggleTask exState "t1").celebration.bind (fun c => c.2)).isSome = true := by
  have h := celebration_tier_milestone_spec exState "t1"
  have h50 : updateProgressPct (toggleTask exState "t1").state = 50 := by
    rw [toggleTask_state_of_not_contains exState "t1" (by decide)]
    unfold updateProgressPct totalTasksOf
    norm_num [exState, exSchedule]
  refine ⟨?_, ?_, ?_⟩
  · rw [h.1]
    decide
  · exact (h.2 (by decide)).2.1 (by rw [h50]) (by rw [h50]; norm_num)
  · exact ((h.2 (by decide)).2.2.2).mpr (Or.inl h50)

/-! ### C9 -/

/-- A completion-record key never carries the location-record key base. -/
theorem dailyTracker_key_not_weather (d : String) :
    strBegins ("dailyTracker_" ++ d) "weather_location_" = false := by
  have hd : ("dailyTracker_" ++ d).data = 'd' :: ("ailyTracker_".data ++ d.data) := by
    cases d with | mk l => rfl
  unfold strBegins
  rw [hd]
  have hw : ("weather_location_" : String).data = 'w' :: "eather_location_".data := by decide
  rw [hw]
  simp [beginsL]

/-- C9: when the poll of `setupMidnightRefresh` observes a day key that no
longer matches the session's `storageKey`, it resets: the page is reloaded,
the in-memory coordinate reverts to the default, every stored
`weather_location_*` record except the new current day's is purged, the new
current day's location record is untouched, and every `dailyTracker_*`
completion record (any day) is left untouched in storage. -/
theorem rollover_resets_location_keeps_completions (st : TrackerState)
    (now : Instant) (k d : String)
    (hroll : getCurrentDateKey now
        ≠ String.mk (replaceFirst st.storageKey.data "dailyTracker_".data)) :
    (midnightPollCheck st now).2 = true
    ∧ (midnightPollCheck st now).1.currentCoordinates = defaultCoordinates
    ∧ (strBegins k "weather_location_" = true →
        k ≠ "weather_location_" ++ getCurrentDateKey now →
        getItem (midnightPollCheck st now).1.storage k = none)
    ∧ getItem (midnightPollCheck st now).1.storage
          ("weather_location_" ++ getCurrentDateKey now)
        = getItem st.storage ("weather_location_" ++ getCurrentDateKey now)
    ∧ getItem (midnightPollCheck st now).1.storage ("dailyTracker_" ++ d)
        = getItem st.storage ("dailyTracker_" ++ d)
    ∧ (midnightPollCheck st now).1.completedTasks = st.completedTasks := by
  have hM : midnightPollCheck st now = (resetLocationToDefault st now, true) := by
    unfold midnightPollCheck
    rw [if_pos hroll]
  rw [hM]
  unfold resetLocationToDefault
  dsimp only
  refine ⟨rfl, rfl, ?_, ?_, ?_, rfl⟩
  · intro hb hk
    unfold getItem
    rw [find?_filter_none]
    · rfl
    · intro x hx
      rw [hx, hb]
      simp [hk]
  · unfold getItem
    rw [find?_filter_keep]
    intro x hx
    rw [hx]
    simp
  · unfold getItem
    rw [find?_filter_keep]
    intro x hx
    rw [hx, dailyTracker_key_not_weather d]
    simp

/-- C9 witness: the reset run at the first poll after the key rolled from
1969-12-31 to 1970-01-01: the stale location record is purged, the new
day's location record and the old day's completion record survive, the
coordinate reverts to the default, and the reload fires. -/
theorem rollover_resets_location_keeps_completions_witness :
    (midnightPollCheck exRolloverState ⟨0, 0⟩).2 = true
    ∧ (midnightPollCheck exRolloverState ⟨0, 0⟩).1.currentCoordinates
        = defaultCoordinates
    ∧ getItem (midnightPollCheck exRolloverState ⟨0, 0⟩).1.storage
        "weather_location_1969-12-31" = none
    ∧ getItem (midnightPollCheck exRolloverState ⟨0, 0⟩).1.storage
        ("weather_location_" ++ getCurrentDateKey ⟨0, 0⟩)
      = getItem exRolloverState.storage
        ("weather_location_" ++ getCurrentDateKey ⟨0, 0⟩)
    ∧ getItem (midnightPollCheck exRolloverState ⟨0, 0⟩).1.storage
        ("dailyTracker_" ++ "1969-12-31")
      = getItem exRolloverState.storage ("dailyTracker_" ++ "1969-12-31") := by
  have h := rollover_resets_location_keeps_completions exRolloverState ⟨0, 0⟩
      "weather_location_1969-12-31" "1969-12-31" (by decide)
  exact ⟨h.1, h.2.1, h.2.2.1 (by decide) (by decide), h.2.2.2.1, h.2.2.2.2.1⟩

end BeeDaily
